import Mathlib

/-!
Shallow embedding of the Tech-Support-Agent repository (files `t_ai.py` and
`app.py`).  The external language-model completion service is modelled as an
oracle parameter `Oracle : String → Except String String` mapping the prompt
text to either a reply (`.ok`) or an exception message (`.error`); the
`random.randint(100000, 999999)` draw is modelled as an explicit `Nat`
parameter; the filesystem read by `load_knowledge_base` is modelled as an
explicit value listing the matched files together with each file's read
outcome.  Every function that may contact the upstream service additionally
returns the list of prompts it actually sent, so "an upstream call was
issued" is observable in the model.
-/

namespace TechSupport

/-- Oracle model of the OpenAI chat-completion call: prompt text to reply
text or exception message. -/
abbrev Oracle := String → Except String String

/-! ### Python string primitives

`str.split(sep)` and `str.strip()` are re-implemented on `List Char` with
structural (fuel-based) recursion so that concrete inputs evaluate inside
the kernel. -/

/-- Python `str.split(sep)` worker: scans the text left to right, cutting at
each non-overlapping occurrence of `sep`.  The fuel starts at the length of
the text, which bounds the number of scanning steps. -/
def pySplitGo (sep : List Char) : Nat → List Char → List Char → List (List Char)
  | _, [], acc => [acc.reverse]
  | 0, rest, acc => [acc.reverse ++ rest]
  | fuel + 1, c :: cs, acc =>
    if sep.isPrefixOf (c :: cs) then
      acc.reverse :: pySplitGo sep fuel (List.drop sep.length (c :: cs)) []
    else
      pySplitGo sep fuel cs (c :: acc)

/-- Python `str.split(sep)` on character lists. -/
def pySplit (sep s : List Char) : List (List Char) :=
  pySplitGo sep s.length s []

/-- Python `str.strip()`: drop whitespace from both ends. -/
def pyStrip (s : List Char) : List Char :=
  ((s.dropWhile Char.isWhitespace).reverse.dropWhile Char.isWhitespace).reverse

/-- Python `s.strip()` lifted to `String`. -/
def pyStripStr (s : String) : String := String.mk (pyStrip s.data)

/-- Python `"\n".join(l)`-style join (`sep.join`), written by recursion on
the list. -/
def joinSep (sep : String) : List String → String
  | [] => ""
  | [x] => x
  | x :: y :: xs => x ++ sep ++ joinSep sep (y :: xs)

/-- The question parser that appears identically in `t_ai.start_chat` and
`app.get_diagnostic_questions`:
`[q.strip() for q in content.split("||") if q.strip()]`. -/
def splitQuestions (content : String) : List String :=
  ((pySplit "||".data content.data).map (fun l => pyStripStr (String.mk l))).filter
    (fun q => q ≠ "")

/-! ### `t_ai.py` (FastAPI service) -/

namespace Tai

deriving instance DecidableEq for Except

/-- `generate_id` from `t_ai.py`; `n` stands for the value drawn by
`random.randint(100000, 999999)`. -/
def generate_id (n : Nat) : String := "TICKET-" ++ toString n

/-- Outcome of attempting to read one knowledge-base file.  The source
wraps `open`, the header append, `f.read()` and the trailing newline append
in a single `try` block: an exception raised by `open` is caught before
anything was appended, while an exception raised by `f.read()` (for
example a decode error) is caught only after the document header was
already appended to the accumulated context. -/
inductive FileRead where
  | ok (content : String)
  | openFail
  | readFail
deriving DecidableEq

/-- Model of the `knowledge_base` directory as seen by
`load_knowledge_base`: whether the directory exists, and the `*.txt` then
`*.md` files found by `glob`, each with its read outcome. -/
structure KnowledgeFS where
  present : Bool
  files : List (String × FileRead)
deriving DecidableEq

/-- Result of `load_knowledge_base`: the returned context string and whether
`os.makedirs` was invoked to create the missing directory. -/
structure KBResult where
  content : String
  createdDir : Bool
deriving DecidableEq

/-- The per-file document header, appended before the file is read:
`"\n--- DOCUMENT: {filename} ---\n"`. -/
def kbHeader (name : String) : String :=
  "\n--- DOCUMENT: " ++ name ++ " ---\n"

/-- The full chunk appended for one successfully read file: header, file
content, trailing newline. -/
def kbDocChunk (name content : String) : String :=
  kbHeader name ++ content ++ "\n"

/-- The for-loop of `load_knowledge_base`, threading the `kb_content`
accumulator.  A file whose `open` raises contributes nothing; a file whose
`f.read()` raises contributes the header that was already appended before
the read; a readable file contributes header, content and newline.  The
caught per-file exception never stops the loop. -/
def kbLoop (acc : String) : List (String × FileRead) → String
  | [] => acc
  | f :: rest =>
    match f.2 with
    | .ok content => kbLoop (acc ++ kbDocChunk f.1 content) rest
    | .openFail => kbLoop acc rest
    | .readFail => kbLoop (acc ++ kbHeader f.1) rest

/-- The accumulated context over all matched files, starting from the
initial `kb_content = ""`. -/
def kbFold (files : List (String × FileRead)) : String :=
  kbLoop "" files

/-- `load_knowledge_base` from `t_ai.py`. -/
def load_knowledge_base (fs : KnowledgeFS) : KBResult :=
  if !fs.present then
    ⟨"No internal knowledge base documents found.", true⟩
  else if fs.files = [] then
    ⟨"No internal documents found.", false⟩
  else
    ⟨kbFold fs.files, false⟩

/-- The f-string prompt of `start_chat` in `t_ai.py`. -/
def startChatPrompt (kb issue : String) : String :=
  "\n    You are a Triage Bot.\n    \n    INTERNAL DOCS:\n    " ++ kb ++
    "\n    \n    User Issue: \"" ++ issue ++
    "\"\n    \n    Task: Generate 3-5 clarifying questions. \n    If the internal docs mention specific troubleshooting steps for this issue, ask if they have tried them.\n    Format: Single text block, separated by \"||\". No numbering.\n    "

/-- `start_chat` from `t_ai.py`.  `client` is whether the OpenAI client was
configured; the first component is the HTTP outcome (`.error` models
`HTTPException(500, ...)`), the second the prompts actually sent upstream. -/
def start_chat (client : Bool) (o : Oracle) (fs : KnowledgeFS) (issue : String) :
    Except String (List String) × List String :=
  if !client then (.error "OpenAI API missing", [])
  else
    let kb := (load_knowledge_base fs).content
    let prompt := startChatPrompt kb issue
    match o prompt with
    | .ok content => (.ok (splitQuestions content), [prompt])
    | .error e => (.error e, [prompt])

/-- One line of the `escalate_ticket` diagnostic log:
`f"- Q: {p.question}\n  A: {p.answer}"`. -/
def escalatePairLine (p : String × String) : String :=
  "- Q: " ++ p.1 ++ "\n  A: " ++ p.2

/-- The `history_summary` computed by `escalate_ticket`. -/
def escalateHistorySummary (qa : List (String × String)) : String :=
  if qa = [] then "User provided no answers."
  else joinSep "\n" (qa.map escalatePairLine)

/-- Text of the `escalate_ticket` prompt before the diagnostic log. -/
def escalatePromptPre (name email tid issue : String) : String :=
  "\n    Create an Escalation Ticket.\n    User: " ++ name ++ " (" ++ email ++
    ")\n    Ticket ID: " ++ tid ++ "\n    Original Issue: " ++ issue ++
    "\n    Diagnostic Log: "

/-- Text of the `escalate_ticket` prompt after the diagnostic log. -/
def escalatePromptPost : String :=
  "\n    Task: Summarize what was tried and flag for human review.\n    "

/-- The full f-string prompt of `escalate_ticket` in `t_ai.py`. -/
def escalatePrompt (name email issue tid : String) (qa : List (String × String)) :
    String :=
  escalatePromptPre name email tid issue ++ escalateHistorySummary qa ++
    escalatePromptPost

/-- `escalate_ticket` from `t_ai.py`; on success returns
`(ticket_id, ticket_text)`. -/
def escalate_ticket (client : Bool) (o : Oracle) (n : Nat)
    (name email issue : String) (qa : List (String × String)) :
    Except String (String × String) × List String :=
  if !client then (.error "OpenAI API missing", [])
  else
    let tid := generate_id n
    let prompt := escalatePrompt name email issue tid qa
    match o prompt with
    | .ok content => (.ok (tid, content), [prompt])
    | .error e => (.error e, [prompt])

end Tai

/-! ### `app.py` (Streamlit app) -/

namespace App

/-- The values taken by `st.session_state.chat_step`. -/
inductive ChatStep where
  | init
  | questioning
  | diagnosis
deriving DecidableEq

/-- The Streamlit session-state fields used by the Direct AI Chat mode.
`chat_current_q_index` is an integer as in Python; it is only ever
initialised to `0` and incremented. -/
structure SessionState where
  chat_step : ChatStep
  chat_questions : List String
  chat_answers : List (String × String)
  chat_current_q_index : Int
  original_issue : String
  final_diagnosis : Option String
  show_escalation : Bool
deriving DecidableEq

/-- The session state right after the `if ... not in st.session_state`
initialisation block. -/
def initialState : SessionState :=
  ⟨.init, [], [], 0, "", none, false⟩

/-- `generate_ticket_id` from `app.py`; `n` stands for the
`random.randint(100000, 999999)` draw. -/
def generate_ticket_id (n : Nat) : String := "TICKET-" ++ toString n

/-- The f-string prompt of `get_diagnostic_questions` in `app.py`. -/
def questionPrompt (issue : String) : String :=
  "\n    You are an IT Support Triage Bot.\n    User Issue: \"" ++ issue ++
    "\"\n    \n    Task: Generate 3 to 5 critical clarifying questions to diagnose this specific issue. \n    Do not provide a solution yet. Just ask questions.\n    \n    FORMATTING RULE: \n    Write the questions in a single block of text. \n    Separate each question with a double pipe symbol \"||\". \n    Example: Is the light blinking?||Have you tried restarting?||When did this start?\n    "

/-- `get_diagnostic_questions` from `app.py`: returns the parsed question
list (empty when the client is missing, the upstream call raises, or the
reply parses to nothing) together with the prompts sent upstream. -/
def get_diagnostic_questions (client : Bool) (o : Oracle) (issue : String) :
    List String × List String :=
  if !client then ([], [])
  else
    let prompt := questionPrompt issue
    match o prompt with
    | .ok content => (splitQuestions content, [prompt])
    | .error _ => ([], [prompt])

/-- One line of the diagnosis history: `f"Q: {q}\nA: {a}"`. -/
def diagPairLine (p : String × String) : String :=
  "Q: " ++ p.1 ++ "\nA: " ++ p.2

/-- Text of the `get_final_diagnosis` prompt before the Q&A history. -/
def diagnosisPromptPre (issue : String) : String :=
  "\n    You are an Expert Tier 2 Tech Support Agent.\n    Original Issue: \"" ++
    issue ++ "\"\n    Clarifying Q&A:\n    "

/-- Text of the `get_final_diagnosis` prompt after the Q&A history. -/
def diagnosisPromptPost : String :=
  "\n    \n    Task: \n    Provide a final technical diagnosis and a solution based on these answers.\n    Format:\n    1. **Diagnosis**: What is likely wrong.\n    2. **Solution**: Step-by-step fix.\n    "

/-- The full f-string prompt of `get_final_diagnosis` in `app.py`. -/
def diagnosisPrompt (issue : String) (qa : List (String × String)) : String :=
  diagnosisPromptPre issue ++ joinSep "\n" (qa.map diagPairLine) ++
    diagnosisPromptPost

/-- `get_final_diagnosis` from `app.py`: always returns a string (on an
upstream exception it returns `"AI Error: ..."` rather than raising),
together with the prompts sent upstream. -/
def get_final_diagnosis (client : Bool) (o : Oracle) (issue : String)
    (qa : List (String × String)) : String × List String :=
  if !client then ("Error: API not connected.", [])
  else
    let prompt := diagnosisPrompt issue qa
    match o prompt with
    | .ok content => (content, [prompt])
    | .error e => ("AI Error: " ++ e, [prompt])

/-- One line of the escalation chat log: `f"- Q: {q}\n  A: {a}"`. -/
def escalationPairLine (p : String × String) : String :=
  "- Q: " ++ p.1 ++ "\n  A: " ++ p.2

/-- The `history_text` computed by `generate_escalation_ticket`. -/
def escalationHistoryText (qa : List (String × String)) : String :=
  joinSep "\n" (qa.map escalationPairLine)

/-- Text of the `generate_escalation_ticket` prompt before the chat log. -/
def escalationPromptPre (name email tid issue : String) : String :=
  "\n    You are a Support Ticket Generator.\n    \n    CONTEXT:\n    The user was interacting with the AI Agent but decided to escalate to a human.\n    \n    User: " ++
    name ++ " (" ++ email ++ ")\n    Ticket ID: " ++ tid ++
    "\n    Original Issue: " ++ issue ++
    "\n    \n    AI CHAT LOG (Partial history of what was asked so far):\n    "

/-- Text of the `generate_escalation_ticket` prompt after the chat log. -/
def escalationPromptPost (tid : String) : String :=
  "\n    \n    TASK:\n    Write a formal Escalation Ticket. \n    - Header: Ticket #" ++
    tid ++
    " - Escalated to Human Support\n    - Section 1: User Details & Original Issue\n    - Section 2: Partial Diagnostic Info (Summarize the Q&A log briefly)\n    - Section 3: Action Required (Human agent to follow up).\n    "

/-- The full f-string prompt of `generate_escalation_ticket` in `app.py`. -/
def escalationPrompt (name email issue tid : String)
    (qa : List (String × String)) : String :=
  escalationPromptPre name email tid issue ++ escalationHistoryText qa ++
    escalationPromptPost tid

/-- `generate_escalation_ticket` from `app.py`: returns the displayed ticket
text (an error string on failure) and the prompts sent upstream. -/
def generate_escalation_ticket (client : Bool) (o : Oracle) (n : Nat)
    (name email issue : String) (qa : List (String × String)) :
    String × List String :=
  if !client then ("Error", [])
  else
    let tid := generate_ticket_id n
    let prompt := escalationPrompt name email issue tid qa
    match o prompt with
    | .ok content => (content, [prompt])
    | .error e => ("Error generating ticket: " ++ e, [prompt])

/-- Outcome of one UI event handler: the session state afterwards, the
prompts sent upstream while handling it, and the `st.warning`/`st.error`
message emitted by the handler branch itself (`none` on the success path). -/
structure HandlerOut where
  state : SessionState
  calls : List String
  msg : Option String
deriving DecidableEq

/-- The question currently displayed:
`st.session_state.chat_questions[idx]` (total model; the default is never
reached in states where the index is in bounds). -/
def currentQuestion (s : SessionState) : String :=
  s.chat_questions.getD s.chat_current_q_index.toNat ""

/-- The Start Diagnosis button handler (STEP 1 of `app.py`). -/
def startDiagnosisHandler (client : Bool) (o : Oracle) (s : SessionState)
    (user_issue : String) : HandlerOut :=
  if user_issue = "" then ⟨s, [], some "Please describe the issue first."⟩
  else
    let r := get_diagnostic_questions client o user_issue
    if r.1 ≠ [] then
      ⟨{ s with
          original_issue := user_issue
          chat_questions := r.1
          chat_step := .questioning
          final_diagnosis := none
          show_escalation := false },
        r.2, none⟩
    else ⟨s, r.2, some "Could not generate questions. Please try again."⟩

/-- The Next button handler (STEP 2 of `app.py`). -/
def nextHandler (s : SessionState) (answer : String) : HandlerOut :=
  if answer = "" then ⟨s, [], some "Please provide an answer."⟩
  else
    let s1 := { s with chat_answers := s.chat_answers ++ [(currentQuestion s, answer)] }
    if s.chat_current_q_index + 1 < (s.chat_questions.length : Int) then
      ⟨{ s1 with chat_current_q_index := s.chat_current_q_index + 1 }, [], none⟩
    else
      ⟨{ s1 with chat_step := .diagnosis }, [], none⟩

/-- The Stop and Create Ticket button handler (early exit in STEP 2). -/
def stopHandler (s : SessionState) (answer : String) : HandlerOut :=
  let s1 :=
    if answer ≠ "" then
      { s with chat_answers := s.chat_answers ++ [(currentQuestion s, answer)] }
    else s
  ⟨{ s1 with
      chat_step := .diagnosis
      show_escalation := true
      final_diagnosis := some "SKIPPED" }, [], none⟩

/-- The automatic part at the top of STEP 3: run the diagnosis call unless
the user skipped or a diagnosis is already cached. -/
def diagnosisEntry (client : Bool) (o : Oracle) (s : SessionState) : HandlerOut :=
  if s.final_diagnosis = some "SKIPPED" then ⟨s, [], none⟩
  else
    match s.final_diagnosis with
    | some _ => ⟨s, [], none⟩
    | none =>
      let r := get_final_diagnosis client o s.original_issue s.chat_answers
      ⟨{ s with final_diagnosis := some r.1 }, r.2, none⟩

/-- The No, Create Ticket button handler in STEP 3. -/
def notSolvedHandler (s : SessionState) : HandlerOut :=
  ⟨{ s with show_escalation := true }, [], none⟩

/-- The Start New Chat button handler: reinitialises every session field. -/
def resetHandler : HandlerOut :=
  ⟨initialState, [], none⟩

/-- The escalation form submit handler at the bottom of STEP 3. -/
def escalationFormHandler (client : Bool) (o : Oracle) (n : Nat)
    (s : SessionState) (e_name e_email : String) : HandlerOut :=
  if e_name ≠ "" ∧ e_email ≠ "" then
    let r := generate_escalation_ticket client o n e_name e_email
      s.original_issue s.chat_answers
    ⟨s, r.2, none⟩
  else ⟨s, [], some "Please provide Name and Email."⟩

/-- The user events available inside one chat session (the Start New Chat
reset is deliberately excluded: the invariants below are per-session). -/
inductive Op where
  | startDiagnosis (issue : String)
  | next (answer : String)
  | stop (answer : String)
  | enterDiagnosis
  | notSolved
  | submitEscalation (name email : String) (n : Nat)

/-- Dispatch one event against the session, guarded by the `chat_step`
branch structure of the page (an event whose UI is not rendered in the
current step is a no-op). -/
def stepOp (client : Bool) (o : Oracle) (s : SessionState) : Op → HandlerOut
  | .startDiagnosis issue =>
    if s.chat_step = .init then startDiagnosisHandler client o s issue
    else ⟨s, [], none⟩
  | .next answer =>
    if s.chat_step = .questioning then nextHandler s answer
    else ⟨s, [], none⟩
  | .stop answer =>
    if s.chat_step = .questioning then stopHandler s answer
    else ⟨s, [], none⟩
  | .enterDiagnosis =>
    if s.chat_step = .diagnosis then diagnosisEntry client o s
    else ⟨s, [], none⟩
  | .notSolved =>
    if s.chat_step = .diagnosis ∧ s.final_diagnosis ≠ some "SKIPPED" ∧
        s.final_diagnosis ≠ none then
      notSolvedHandler s
    else ⟨s, [], none⟩
  | .submitEscalation name email n =>
    if s.chat_step = .diagnosis ∧ s.show_escalation then
      escalationFormHandler client o n s name email
    else ⟨s, [], none⟩

/-- Run a sequence of events. -/
def runOps (client : Bool) (o : Oracle) (s : SessionState) : List Op → SessionState
  | [] => s
  | op :: ops => runOps client o (stepOp client o s op).state ops

/-- States reachable within one session from the freshly initialised state. -/
inductive Reachable (client : Bool) (o : Oracle) : SessionState → Prop where
  | start : Reachable client o initialState
  | succ {s : SessionState} (op : Op) :
      Reachable client o s → Reachable client o (stepOp client o s op).state

/-- The session invariant maintained by every handler: the question index
is non-negative, bounded by the number of questions (strictly while
questioning), and still zero while at intake. -/
def Inv (s : SessionState) : Prop :=
  0 ≤ s.chat_current_q_index ∧
  s.chat_current_q_index ≤ (s.chat_questions.length : Int) ∧
  (s.chat_step = .init → s.chat_current_q_index = 0) ∧
  (s.chat_step = .questioning →
    s.chat_current_q_index < (s.chat_questions.length : Int))

/-- Iterate the automatic diagnosis entry, accumulating the upstream calls
it issues (models re-entering or re-displaying the Diagnosing state). -/
def iterDiag (client : Bool) (o : Oracle) : Nat → SessionState → SessionState × List String
  | 0, s => (s, [])
  | n + 1, s =>
    let out := diagnosisEntry client o s
    let rest := iterDiag client o n out.state
    (rest.1, out.calls ++ rest.2)

end App

/-! ### Concrete fixtures used to instantiate the theorems -/

/-- Oracle whose reply parses to six questions. -/
def oracle_six : Oracle := fun _ => .ok "a||b||c||d||e||f"

/-- Oracle whose reply parses to zero questions. -/
def oracle_empty : Oracle := fun _ => .ok ""

/-- Oracle that raises on every call. -/
def oracle_fail : Oracle := fun _ => .error "boom"

/-- Oracle that replies `"body"` to every call. -/
def oracle_ok : Oracle := fun _ => .ok "body"

/-- A session that has answered its single question and entered the
diagnosis step, with no diagnosis cached yet. -/
def state_diag : App.SessionState :=
  ⟨.diagnosis, ["q1"], [("q1", "a1")], 0, "pc broken", none, false⟩

/-- A session in the diagnosis step with a diagnosis already cached. -/
def state_some : App.SessionState :=
  ⟨.diagnosis, ["q1"], [("q1", "a1")], 0, "pc broken", some "done", false⟩

/-- A questioning session standing at the last (single) question. -/
def state_qlast : App.SessionState :=
  ⟨.questioning, ["q1"], [], 0, "pc broken", none, false⟩

/-! ### Helper lemmas -/

/-- Every string kept by the question parser is non-empty: the list
comprehension filters on the truthiness of `q.strip()`. -/
theorem mem_splitQuestions_ne_empty {content q : String}
    (h : q ∈ splitQuestions content) : q ≠ "" := by
  have := (List.mem_filter.mp h).2
  exact of_decide_eq_true this

/-- A member of a joined list occurs contiguously inside the join. -/
theorem joinSep_contains_mem (sep : String) :
    ∀ (l : List String) (x : String), x ∈ l → x.data <:+: (joinSep sep l).data
  | [], x, hx => absurd hx (List.not_mem_nil x)
  | [a], x, hx => by
    have hxa : x = a := by simpa using hx
    subst hxa
    simp [joinSep]
  | a :: b :: t, x, hx => by
    rcases List.mem_cons.mp hx with h | h
    · subst h
      exact ⟨[], sep.data ++ (joinSep sep (b :: t)).data, by
        simp [joinSep, String.data_append]⟩
    · have ih := joinSep_contains_mem sep (b :: t) x h
      exact ih.trans ⟨a.data ++ sep.data, [], by
        simp [joinSep, String.data_append]⟩

/-- The question of a Q&A pair occurs contiguously in its log line. -/
theorem pairLine_contains_fst (p : String × String) :
    p.1.data <:+: (App.escalationPairLine p).data :=
  ⟨"- Q: ".data, ("\n  A: " ++ p.2).data, by
    simp [App.escalationPairLine, String.data_append]⟩

/-- The answer of a Q&A pair occurs contiguously in its log line. -/
theorem pairLine_contains_snd (p : String × String) :
    p.2.data <:+: (App.escalationPairLine p).data :=
  ⟨("- Q: " ++ p.1 ++ "\n  A: ").data, [], by
    simp [App.escalationPairLine, String.data_append]⟩

/-- Threading the accumulator through the knowledge-base loop. -/
theorem kbLoop_eq (files : List (String × Tai.FileRead)) (acc : String) :
    Tai.kbLoop acc files = acc ++ Tai.kbFold files := by
  induction files generalizing acc with
  | nil => simp [Tai.kbLoop, Tai.kbFold]
  | cons f t ih =>
    rcases f with ⟨nm, r⟩
    cases r with
    | ok c =>
      show Tai.kbLoop (acc ++ Tai.kbDocChunk nm c) t =
        acc ++ Tai.kbLoop ("" ++ Tai.kbDocChunk nm c) t
      rw [ih, ih, String.empty_append, String.append_assoc]
    | openFail =>
      show Tai.kbLoop acc t = acc ++ Tai.kbLoop "" t
      rw [ih]
      exact rfl
    | readFail =>
      show Tai.kbLoop (acc ++ Tai.kbHeader nm) t =
        acc ++ Tai.kbLoop ("" ++ Tai.kbHeader nm) t
      rw [ih, ih, String.empty_append, String.append_assoc]

/-- The knowledge-base loop processes a concatenation of file lists
segment by segment. -/
theorem kbFold_append (l1 l2 : List (String × Tai.FileRead)) :
    Tai.kbFold (l1 ++ l2) = Tai.kbFold l1 ++ Tai.kbFold l2 := by
  induction l1 with
  | nil => rfl
  | cons f t ih =>
    rcases f with ⟨nm, r⟩
    cases r with
    | ok c =>
      show Tai.kbLoop ("" ++ Tai.kbDocChunk nm c) (t ++ l2) =
        Tai.kbLoop ("" ++ Tai.kbDocChunk nm c) t ++ Tai.kbFold l2
      rw [kbLoop_eq, kbLoop_eq, ih]
      simp [String.append_assoc]
    | openFail =>
      show Tai.kbLoop "" (t ++ l2) = Tai.kbLoop "" t ++ Tai.kbFold l2
      exact ih
    | readFail =>
      show Tai.kbLoop ("" ++ Tai.kbHeader nm) (t ++ l2) =
        Tai.kbLoop ("" ++ Tai.kbHeader nm) t ++ Tai.kbFold l2
      rw [kbLoop_eq, kbLoop_eq, ih]
      simp [String.append_assoc]

/-! ### Claims -/

/-- C1, counterexample: `start_chat` silently accepts as success both a
reply parsing to six questions and a reply parsing to zero questions, so it
does not enforce the 3-to-5 bound claimed. -/
theorem c1_counterexample :
    (Tai.start_chat true oracle_six ⟨true, []⟩ "screen is black").1 =
      Except.ok ["a", "b", "c", "d", "e", "f"] ∧
    (Tai.start_chat true oracle_empty ⟨true, []⟩ "screen is black").1 =
      Except.ok [] := by
  decide

/-- C1, amended: question generation returns, on upstream success, exactly
the non-empty stripped segments of the reply split on the double-pipe
delimiter — every returned question is a non-empty string, but the number
of questions is not constrained (zero and more than five are both accepted
as success); only a missing credential or an upstream exception produces an
error. -/
theorem c1_amended :
    (∀ (client : Bool) (o : Oracle) (fs : Tai.KnowledgeFS) (issue : String)
        (qs : List String),
        (Tai.start_chat client o fs issue).1 = Except.ok qs →
        ∀ q ∈ qs, q ≠ "") ∧
    (∀ (client : Bool) (o : Oracle) (issue : String) (q : String),
        q ∈ (App.get_diagnostic_questions client o issue).1 → q ≠ "") := by
  constructor
  · intro client o fs issue qs h q hq
    unfold Tai.start_chat at h
    split at h
    · simp at h
    · simp only [] at h
      split at h
      · simp only at h
        injection h with h
        subst h
        exact mem_splitQuestions_ne_empty hq
      · simp at h
  · intro client o issue q hq
    unfold App.get_diagnostic_questions at hq
    split at hq
    · simp at hq
    · simp only [] at hq
      split at hq
      · exact mem_splitQuestions_ne_empty hq
      · simp at hq

/-- C1, witness for the amended theorem at a concrete oracle. -/
theorem c1_amended_witness :
    "a" ∈ (App.get_diagnostic_questions true oracle_six "x").1 ∧ ("a" : String) ≠ "" :=
  ⟨by decide, c1_amended.2 true oracle_six "x" "a" (by decide)⟩

/-- C7: escalation with an empty Q&A history still succeeds, returning the
ticket id `TICKET-` followed by the drawn number together with the
generated ticket body; the empty history is summarised by the sentinel
line. -/
theorem c7_escalate_empty_history (o : Oracle) (n : Nat)
    (name email issue r : String)
    (h1 : 100000 ≤ n) (h2 : n ≤ 999999)
    (ho : o (Tai.escalatePrompt name email issue (Tai.generate_id n) []) =
      Except.ok r) :
    Tai.escalate_ticket true o n name email issue [] =
      (Except.ok (Tai.generate_id n, r),
        [Tai.escalatePrompt name email issue (Tai.generate_id n) []]) ∧
    Tai.generate_id n = "TICKET-" ++ toString n ∧
    Tai.escalateHistorySummary [] = "User provided no answers." ∧
    100000 ≤ n ∧ n ≤ 999999 := by
  refine ⟨?_, rfl, rfl, h1, h2⟩
  unfold Tai.escalate_ticket
  simp [ho]

/-- C7, witness at the draw 123456 and an oracle that replies `"body"`. -/
theorem c7_escalate_empty_history_witness :
    Tai.escalate_ticket true oracle_ok 123456 "Jane" "jane@x.com" "no sound" [] =
      (Except.ok (Tai.generate_id 123456,  "body"),
        [Tai.escalatePrompt "Jane" "jane@x.com" "no sound" (Tai.generate_id 123456) []]) ∧
    Tai.generate_id 123456 = "TICKET-" ++ toString 123456 ∧
    Tai.escalateHistorySummary [] = "User provided no answers." ∧
    100000 ≤ 123456 ∧ 123456 ≤ 999999 :=
  c7_escalate_empty_history oracle_ok 123456 "Jane" "jane@x.com" "no sound" "body"
    (by decide) (by decide) rfl

/-- C8, counterexample: the FastAPI `escalate_ticket` endpoint performs no
emptiness validation — with empty name and email it still issues the
upstream call (one prompt sent) and returns success instead of an
`InvalidInput` rejection. -/
theorem c8_counterexample :
    Tai.escalate_ticket true oracle_ok 123456 "" "" "printer jams" [] =
      (Except.ok ("TICKET-123456", "body"),
        [Tai.escalatePrompt "" "" "printer jams" "TICKET-123456" []]) ∧
    (Tai.escalate_ticket true oracle_ok 123456 "" "" "printer jams" []).2.length = 1 := by
  set_option maxRecDepth 8000 in decide

/-- C8, amended: in the Streamlit app an empty issue at intake, an empty
answer while questioning, and an empty name or email on the escalation form
are each rejected with a validation message, with no upstream call and no
state change; the FastAPI escalate endpoint, by contrast, performs no such
validation (see the counterexample). -/
theorem c8_amended :
    (∀ (client : Bool) (o : Oracle) (s : App.SessionState),
        App.startDiagnosisHandler client o s "" =
          ⟨s, [], some "Please describe the issue first."⟩) ∧
    (∀ s : App.SessionState,
        App.nextHandler s "" = ⟨s, [], some "Please provide an answer."⟩) ∧
    (∀ (client : Bool) (o : Oracle) (n : Nat) (s : App.SessionState)
        (name email : String),
        name = "" ∨ email = "" →
        App.escalationFormHandler client o n s name email =
          ⟨s, [], some "Please provide Name and Email."⟩) := by
  refine ⟨fun client o s => ?_, fun s => ?_, fun client o n s name email h => ?_⟩
  · simp [App.startDiagnosisHandler]
  · simp [App.nextHandler]
  · have hne : ¬(name ≠ "" ∧ email ≠ "") := by
      rcases h with h | h
      · exact fun hc => hc.1 h
      · exact fun hc => hc.2 h
    simp [App.escalationFormHandler, hne]

/-- C8, witness instantiating the three validation rejections. -/
theorem c8_amended_witness :
    App.startDiagnosisHandler true oracle_ok App.initialState "" =
      ⟨App.initialState, [], some "Please describe the issue first."⟩ ∧
    App.nextHandler state_qlast "" =
      ⟨state_qlast, [], some "Please provide an answer."⟩ ∧
    App.escalationFormHandler true oracle_ok 123456 state_diag "" "jane@x.com" =
      ⟨state_diag, [], some "Please provide Name and Email."⟩ :=
  ⟨c8_amended.1 true oracle_ok App.initialState, c8_amended.2.1 state_qlast,
    c8_amended.2.2 true oracle_ok 123456 state_diag "" "jane@x.com" (Or.inl rfl)⟩

/-- C9, counterexample: a file whose read raises after a successful open is
not skipped — its already-appended document header remains in the returned
context, so the result differs from the run without that file. -/
theorem c9_counterexample :
    (Tai.load_knowledge_base ⟨true,
        [("a.txt", Tai.FileRead.ok "alpha"),
          ("bad.txt", Tai.FileRead.readFail)]⟩).content ≠
      (Tai.load_knowledge_base ⟨true, [("a.txt", Tai.FileRead.ok "alpha")]⟩).content ∧
    (Tai.load_knowledge_base ⟨true,
        [("a.txt", Tai.FileRead.ok "alpha"),
          ("bad.txt", Tai.FileRead.readFail)]⟩).content =
      "\n--- DOCUMENT: a.txt ---\nalpha\n\n--- DOCUMENT: bad.txt ---\n" := by
  decide

/-- C9, amended: `load_knowledge_base` returns the no-documents sentinel
and creates the directory when it is absent, returns the no-documents
sentinel when the directory matches no files, and never fails as a whole: a
file whose open raises is skipped entirely, while a file whose read raises
after a successful open has its content omitted but leaves the
already-appended document header in the returned context; in both cases the
remaining files are still processed. -/
theorem c9_load_knowledge_base (fs : Tai.KnowledgeFS)
    (pre post : List (String × Tai.FileRead)) (name name2 : String)
    (habs : fs.present = false) :
    Tai.load_knowledge_base fs =
      ⟨"No internal knowledge base documents found.", true⟩ ∧
    Tai.load_knowledge_base ⟨true, []⟩ = ⟨"No internal documents found.", false⟩ ∧
    (Tai.load_knowledge_base
        ⟨true, pre ++ (name, Tai.FileRead.openFail) :: post⟩).content =
      Tai.kbFold (pre ++ post) ∧
    (Tai.load_knowledge_base
        ⟨true, pre ++ (name2, Tai.FileRead.readFail) :: post⟩).content =
      Tai.kbFold pre ++ Tai.kbHeader name2 ++ Tai.kbFold post := by
  refine ⟨?_, rfl, ?_, ?_⟩
  · unfold Tai.load_knowledge_base
    simp [habs]
  · have hne : pre ++ (name, Tai.FileRead.openFail) :: post ≠ [] := by simp
    unfold Tai.load_knowledge_base
    simp [hne]
    rw [kbFold_append, kbFold_append]
    rfl
  · have hne : pre ++ (name2, Tai.FileRead.readFail) :: post ≠ [] := by simp
    have hcons : Tai.kbFold ((name2, Tai.FileRead.readFail) :: post) =
        Tai.kbHeader name2 ++ Tai.kbFold post := by
      show Tai.kbLoop ("" ++ Tai.kbHeader name2) post = _
      rw [String.empty_append]
      exact kbLoop_eq post (Tai.kbHeader name2)
    unfold Tai.load_knowledge_base
    simp [hne]
    rw [kbFold_append, hcons, String.append_assoc]

/-- C9, witness: absent directory, empty directory, and a directory holding
a readable file, a failing file, and another readable file after it. -/
theorem c9_load_knowledge_base_witness :
    Tai.load_knowledge_base ⟨false, []⟩ =
      ⟨"No internal knowledge base documents found.", true⟩ ∧
    Tai.load_knowledge_base ⟨true, []⟩ = ⟨"No internal documents found.", false⟩ ∧
    (Tai.load_knowledge_base
        ⟨true, [("a.txt", Tai.FileRead.ok "alpha")] ++
          ("gone.txt", Tai.FileRead.openFail) ::
            [("b.md", Tai.FileRead.ok "beta")]⟩).content =
      Tai.kbFold ([("a.txt", Tai.FileRead.ok "alpha")] ++
        [("b.md", Tai.FileRead.ok "beta")]) ∧
    (Tai.load_knowledge_base
        ⟨true, [("a.txt", Tai.FileRead.ok "alpha")] ++
          ("bad.txt", Tai.FileRead.readFail) ::
            [("b.md", Tai.FileRead.ok "beta")]⟩).content =
      Tai.kbFold [("a.txt", Tai.FileRead.ok "alpha")] ++ Tai.kbHeader "bad.txt" ++
        Tai.kbFold [("b.md", Tai.FileRead.ok "beta")] :=
  c9_load_knowledge_base ⟨false, []⟩ [("a.txt", Tai.FileRead.ok "alpha")]
    [("b.md", Tai.FileRead.ok "beta")] "gone.txt" "bad.txt" rfl

/-- C2, counterexample: a failed diagnosis call does not leave the session
in its pre-call state — the raised error text is cached in
`final_diagnosis`, and re-entering the diagnosis step afterwards issues no
new upstream call, so the diagnosis cannot be re-triggered from that
state. -/
theorem c2_counterexample :
    state_diag.final_diagnosis = none ∧
    (App.diagnosisEntry true oracle_fail state_diag).state ≠ state_diag ∧
    (App.diagnosisEntry true oracle_fail state_diag).state.final_diagnosis =
      some "AI Error: boom" ∧
    (App.diagnosisEntry true oracle_fail
        ((App.diagnosisEntry true oracle_fail state_diag).state)).calls = [] := by
  decide

/-- C2, amended: a failed question-generation call and any escalation-form
submission leave the session state unchanged, so those steps can be
retried; a failed diagnosis call, however, stores the error text
`"AI Error: ..."` in `final_diagnosis` instead of leaving the session in
its pre-call state. -/
theorem c2_amended :
    (∀ (client : Bool) (o : Oracle) (s : App.SessionState) (issue : String),
        (App.startDiagnosisHandler client o s issue).msg.isSome →
        (App.startDiagnosisHandler client o s issue).state = s) ∧
    (∀ (client : Bool) (o : Oracle) (n : Nat) (s : App.SessionState)
        (name email : String),
        (App.escalationFormHandler client o n s name email).state = s) ∧
    (∀ (o : Oracle) (s : App.SessionState) (e : String),
        s.final_diagnosis = none →
        o (App.diagnosisPrompt s.original_issue s.chat_answers) = Except.error e →
        (App.diagnosisEntry true o s).state.final_diagnosis =
          some ("AI Error: " ++ e)) := by
  refine ⟨?_, ?_, ?_⟩
  · intro client o s issue h
    by_cases hiss : issue = ""
    · simp [App.startDiagnosisHandler, hiss]
    · by_cases hq : (App.get_diagnostic_questions client o issue).1 ≠ []
      · simp [App.startDiagnosisHandler, hiss, hq] at h
      · simp [App.startDiagnosisHandler, hiss, hq]
  · intro client o n s name email
    unfold App.escalationFormHandler
    split_ifs <;> rfl
  · intro o s e h he
    simp [App.diagnosisEntry, h, App.get_final_diagnosis, he]

/-- C2, witness instantiating the three conjuncts of the amended claim. -/
theorem c2_amended_witness :
    (App.startDiagnosisHandler true oracle_fail App.initialState "x").state =
      App.initialState ∧
    (App.escalationFormHandler true oracle_fail 123456 state_diag "Jane"
        "jane@x.com").state = state_diag ∧
    (App.diagnosisEntry true oracle_fail state_diag).state.final_diagnosis =
      some ("AI Error: " ++ "boom") :=
  ⟨c2_amended.1 true oracle_fail App.initialState "x" (by decide),
   c2_amended.2.1 true oracle_fail 123456 state_diag "Jane" "jane@x.com",
   c2_amended.2.2 oracle_fail state_diag "boom" rfl rfl⟩

/-- Once a diagnosis (or the SKIPPED marker) is cached, re-entering the
diagnosis step is a no-op that issues no upstream call. -/
theorem diagnosisEntry_cached (client : Bool) (o : Oracle) (s : App.SessionState)
    (h : s.final_diagnosis.isSome) :
    App.diagnosisEntry client o s = ⟨s, [], none⟩ := by
  obtain ⟨d, hd⟩ := Option.isSome_iff_exists.mp h
  unfold App.diagnosisEntry
  rw [hd]
  by_cases hskip : d = "SKIPPED" <;> simp [hskip]

/-- After one pass through the diagnosis step a diagnosis is always
cached. -/
theorem diagnosisEntry_sets_cache (client : Bool) (o : Oracle)
    (s : App.SessionState) :
    (App.diagnosisEntry client o s).state.final_diagnosis.isSome := by
  unfold App.diagnosisEntry
  rcases hd : s.final_diagnosis with _ | d
  · simp [hd]
  · by_cases hskip : d = "SKIPPED" <;> simp [hd, hskip]

/-- Each pass through the diagnosis step issues at most one upstream
call. -/
theorem diagnosisEntry_calls_le_one (client : Bool) (o : Oracle)
    (s : App.SessionState) :
    (App.diagnosisEntry client o s).calls.length ≤ 1 := by
  unfold App.diagnosisEntry App.get_final_diagnosis
  rcases hd : s.final_diagnosis with _ | d
  · cases client
    · simp [hd]
    · rcases ho : o (App.diagnosisPrompt s.original_issue s.chat_answers) <;>
        simp [hd, ho]
  · by_cases hskip : d = "SKIPPED" <;> simp [hd, hskip]

/-- C3: across any number of re-entries into the diagnosis step, the
upstream diagnosis call is issued at most once in total, and it is never
issued at all when a diagnosis is already cached. -/
theorem c3_diagnosis_at_most_once (client : Bool) (o : Oracle) (n : Nat)
    (s : App.SessionState) :
    (App.iterDiag client o n s).2.length ≤ 1 ∧
    (s.final_diagnosis.isSome → (App.iterDiag client o n s).2 = []) := by
  induction n generalizing s with
  | zero => exact ⟨by simp [App.iterDiag], fun _ => by simp [App.iterDiag]⟩
  | succ n ih =>
    constructor
    · have h1 := diagnosisEntry_calls_le_one client o s
      have h2 := (ih ((App.diagnosisEntry client o s).state)).2
        (diagnosisEntry_sets_cache client o s)
      simpa [App.iterDiag, h2] using h1
    · intro hs
      have hcached := diagnosisEntry_cached client o s hs
      have h2 := (ih s).2 hs
      simp [App.iterDiag, hcached, h2]

/-- C3, witness: two re-entries on a session with a cached diagnosis issue
no upstream call. -/
theorem c3_diagnosis_at_most_once_witness :
    (App.iterDiag true oracle_fail 2 state_some).2.length ≤ 1 ∧
    (App.iterDiag true oracle_fail 2 state_some).2 = [] :=
  ⟨(c3_diagnosis_at_most_once true oracle_fail 2 state_some).1,
   (c3_diagnosis_at_most_once true oracle_fail 2 state_some).2 (by decide)⟩

/-- C5, counterexample: answering the last question appends the pair but
does not increment `chat_current_q_index` — the session enters the
diagnosis step with the index still at `len(questions) - 1`, not at
`len(questions)` as claimed. -/
theorem c5_counterexample :
    state_qlast.chat_step = App.ChatStep.questioning ∧
    state_qlast.chat_current_q_index = 0 ∧
    state_qlast.chat_questions.length = 1 ∧
    (App.nextHandler state_qlast "it beeps").state.chat_answers =
      [("q1", "it beeps")] ∧
    (App.nextHandler state_qlast "it beeps").state.chat_step =
      App.ChatStep.diagnosis ∧
    (App.nextHandler state_qlast "it beeps").state.chat_current_q_index = 0 ∧
    ¬(App.nextHandler state_qlast "it beeps").state.chat_current_q_index =
        state_qlast.chat_current_q_index + 1 := by
  decide

/-- C5, amended: submitting a non-empty answer appends the
(question, answer) pair; if `currentIndex + 1 < len(questions)` the index
is incremented and the session stays questioning, otherwise the index is
left unchanged and the session enters the diagnosis step (so after the
last answer the index is `len(questions) - 1`). -/
theorem c5_amended (s : App.SessionState) (answer : String)
    (hstep : s.chat_step = App.ChatStep.questioning) (hans : answer ≠ "") :
    (App.nextHandler s answer).state.chat_answers =
      s.chat_answers ++ [(App.currentQuestion s, answer)] ∧
    (s.chat_current_q_index + 1 < (s.chat_questions.length : Int) →
      (App.nextHandler s answer).state.chat_current_q_index =
        s.chat_current_q_index + 1 ∧
      (App.nextHandler s answer).state.chat_step = App.ChatStep.questioning) ∧
    (¬s.chat_current_q_index + 1 < (s.chat_questions.length : Int) →
      (App.nextHandler s answer).state.chat_current_q_index =
        s.chat_current_q_index ∧
      (App.nextHandler s answer).state.chat_step = App.ChatStep.diagnosis) := by
  unfold App.nextHandler
  by_cases hlt : s.chat_current_q_index + 1 < (s.chat_questions.length : Int) <;>
    simp [hans, hlt, hstep]

/-- C5, witness at the last-question fixture. -/
theorem c5_amended_witness :
    (App.nextHandler state_qlast "it beeps").state.chat_answers =
      state_qlast.chat_answers ++
        [(App.currentQuestion state_qlast, "it beeps")] ∧
    (App.nextHandler state_qlast "it beeps").state.chat_current_q_index =
      state_qlast.chat_current_q_index ∧
    (App.nextHandler state_qlast "it beeps").state.chat_step =
      App.ChatStep.diagnosis :=
  ⟨(c5_amended state_qlast "it beeps" rfl (by decide)).1,
   (c5_amended state_qlast "it beeps" rfl (by decide)).2.2 (by decide)⟩

/-- C6: every accumulated (question, answer) pair appears verbatim — as a
contiguous, untruncated substring — in the escalation prompt, both for the
Streamlit `generate_escalation_ticket` builder and for the FastAPI
`escalate_ticket` builder. -/
theorem c6_escalation_prompt_contains_qa (name email issue tid : String)
    (qa : List (String × String)) (p : String × String) (hp : p ∈ qa) :
    (p.1.data <:+: (App.escalationPrompt name email issue tid qa).data ∧
     p.2.data <:+: (App.escalationPrompt name email issue tid qa).data) ∧
    (p.1.data <:+: (Tai.escalatePrompt name email issue tid qa).data ∧
     p.2.data <:+: (Tai.escalatePrompt name email issue tid qa).data) := by
  have hline : (App.escalationPairLine p).data <:+:
      (App.escalationHistoryText qa).data :=
    joinSep_contains_mem "\n" (qa.map App.escalationPairLine) _
      (List.mem_map_of_mem _ hp)
  have happ : (App.escalationHistoryText qa).data <:+:
      (App.escalationPrompt name email issue tid qa).data :=
    ⟨(App.escalationPromptPre name email tid issue).data,
      (App.escalationPromptPost tid).data, by
        simp [App.escalationPrompt, String.data_append]⟩
  have hqa : qa ≠ [] := List.ne_nil_of_mem hp
  have hsum : Tai.escalateHistorySummary qa =
      joinSep "\n" (qa.map Tai.escalatePairLine) := by
    unfold Tai.escalateHistorySummary
    simp [hqa]
  have hlineT : (Tai.escalatePairLine p).data <:+:
      (Tai.escalateHistorySummary qa).data := by
    rw [hsum]
    exact joinSep_contains_mem "\n" (qa.map Tai.escalatePairLine) _
      (List.mem_map_of_mem _ hp)
  have htai : (Tai.escalateHistorySummary qa).data <:+:
      (Tai.escalatePrompt name email issue tid qa).data :=
    ⟨(Tai.escalatePromptPre name email tid issue).data,
      Tai.escalatePromptPost.data, by
        simp [Tai.escalatePrompt, String.data_append]⟩
  exact ⟨⟨(pairLine_contains_fst p).trans (hline.trans happ),
          (pairLine_contains_snd p).trans (hline.trans happ)⟩,
         ⟨(pairLine_contains_fst p).trans (hlineT.trans htai),
          (pairLine_contains_snd p).trans (hlineT.trans htai)⟩⟩

/-- C6, witness at a one-pair history. -/
theorem c6_escalation_prompt_contains_qa_witness :
    (("q1" : String).data <:+:
      (App.escalationPrompt "Jane" "jane@x.com" "no sound" "TICKET-111111"
        [("q1", "a1")]).data ∧
     ("a1" : String).data <:+:
      (App.escalationPrompt "Jane" "jane@x.com" "no sound" "TICKET-111111"
        [("q1", "a1")]).data) ∧
    (("q1" : String).data <:+:
      (Tai.escalatePrompt "Jane" "jane@x.com" "no sound" "TICKET-111111"
        [("q1", "a1")]).data ∧
     ("a1" : String).data <:+:
      (Tai.escalatePrompt "Jane" "jane@x.com" "no sound" "TICKET-111111"
        [("q1", "a1")]).data) :=
  c6_escalation_prompt_contains_qa "Jane" "jane@x.com" "no sound"
    "TICKET-111111" [("q1", "a1")] ("q1", "a1") (by decide)

/-- C10: question generation in the Streamlit app collapses a missing
credential, an upstream exception, and a reply parsing to zero questions
into the same return value (the empty list), so the Start Diagnosis
handler cannot distinguish them — in all three cases the session state is
left unchanged (the session stays at intake) and the handler emits the same
single error signal. -/
theorem c10_question_failures_indistinguishable (o1 o2 o3 : Oracle)
    (s : App.SessionState) (issue e c : String)
    (hissue : issue ≠ "")
    (h2 : o2 (App.questionPrompt issue) = Except.error e)
    (h3 : o3 (App.questionPrompt issue) = Except.ok c)
    (hc : splitQuestions c = []) :
    (App.get_diagnostic_questions false o1 issue).1 = [] ∧
    (App.get_diagnostic_questions true o2 issue).1 = [] ∧
    (App.get_diagnostic_questions true o3 issue).1 = [] ∧
    App.startDiagnosisHandler false o1 s issue =
      ⟨s, [], some "Could not generate questions. Please try again."⟩ ∧
    App.startDiagnosisHandler true o2 s issue =
      ⟨s, [App.questionPrompt issue],
        some "Could not generate questions. Please try again."⟩ ∧
    App.startDiagnosisHandler true o3 s issue =
      ⟨s, [App.questionPrompt issue],
        some "Could not generate questions. Please try again."⟩ := by
  refine ⟨?_, ?_, ?_, ?_, ?_, ?_⟩
  · simp [App.get_diagnostic_questions]
  · simp [App.get_diagnostic_questions, h2]
  · simp [App.get_diagnostic_questions, h3, hc]
  · simp [App.startDiagnosisHandler, hissue, App.get_diagnostic_questions]
  · simp [App.startDiagnosisHandler, hissue, App.get_diagnostic_questions, h2]
  · simp [App.startDiagnosisHandler, hissue, App.get_diagnostic_questions, h3, hc]

/-- C10, witness with one oracle per failure mode. -/
theorem c10_question_failures_indistinguishable_witness :
    (App.get_diagnostic_questions false oracle_ok "x").1 = [] ∧
    (App.get_diagnostic_questions true oracle_fail "x").1 = [] ∧
    (App.get_diagnostic_questions true oracle_empty "x").1 = [] ∧
    App.startDiagnosisHandler false oracle_ok App.initialState "x" =
      ⟨App.initialState, [],
        some "Could not generate questions. Please try again."⟩ ∧
    App.startDiagnosisHandler true oracle_fail App.initialState "x" =
      ⟨App.initialState, [App.questionPrompt "x"],
        some "Could not generate questions. Please try again."⟩ ∧
    App.startDiagnosisHandler true oracle_empty App.initialState "x" =
      ⟨App.initialState, [App.questionPrompt "x"],
        some "Could not generate questions. Please try again."⟩ :=
  c10_question_failures_indistinguishable oracle_ok oracle_fail oracle_empty
    App.initialState "x" "boom" "" (by decide) rfl rfl (by decide)

/-- The freshly initialised session satisfies the index invariant. -/
theorem inv_initialState : App.Inv App.initialState := by
  unfold App.Inv App.initialState
  refine ⟨by simp, by simp, by simp, by simp⟩

/-- The Start Diagnosis handler preserves the index invariant from the
intake state. -/
theorem inv_startDiagnosisHandler (client : Bool) (o : Oracle)
    (s : App.SessionState) (issue : String)
    (hs : App.Inv s) (hstep : s.chat_step = App.ChatStep.init) :
    App.Inv (App.startDiagnosisHandler client o s issue).state := by
  obtain ⟨h0, hle, hinit, hques⟩ := hs
  have hidx := hinit hstep
  by_cases hiss : issue = ""
  · simpa [App.startDiagnosisHandler, hiss] using ⟨h0, hle, hinit, hques⟩
  · by_cases hq : (App.get_diagnostic_questions client o issue).1 ≠ []
    · have hlen : 0 < (App.get_diagnostic_questions client o issue).1.length :=
        List.length_pos.mpr hq
      refine ⟨?_, ?_, ?_, ?_⟩ <;>
        simp [App.startDiagnosisHandler, hiss, hq, App.Inv, hidx]
      all_goals omega
    · simpa [App.startDiagnosisHandler, hiss, hq] using ⟨h0, hle, hinit, hques⟩

/-- The Next handler preserves the index invariant from the questioning
state. -/
theorem inv_nextHandler (s : App.SessionState) (answer : String)
    (hs : App.Inv s) (hstep : s.chat_step = App.ChatStep.questioning) :
    App.Inv (App.nextHandler s answer).state := by
  obtain ⟨h0, hle, hinit, hques⟩ := hs
  have hlt := hques hstep
  by_cases hans : answer = ""
  · simpa [App.nextHandler, hans] using ⟨h0, hle, hinit, hques⟩
  · by_cases hlt2 : s.chat_current_q_index + 1 < (s.chat_questions.length : Int)
    · refine ⟨?_, ?_, ?_, ?_⟩ <;>
        simp [App.nextHandler, hans, hlt2, hstep] <;> omega
    · refine ⟨?_, ?_, ?_, ?_⟩ <;>
        simp [App.nextHandler, hans, hlt2, hstep] <;> omega

/-- The Stop handler preserves the index invariant from the questioning
state. -/
theorem inv_stopHandler (s : App.SessionState) (answer : String)
    (hs : App.Inv s) (hstep : s.chat_step = App.ChatStep.questioning) :
    App.Inv (App.stopHandler s answer).state := by
  obtain ⟨h0, hle, hinit, hques⟩ := hs
  have hlt := hques hstep
  by_cases hans : answer ≠ "" <;>
    refine ⟨?_, ?_, ?_, ?_⟩ <;>
      simp [App.stopHandler, hans] <;> omega

/-- The automatic diagnosis pass preserves the index invariant. -/
theorem inv_diagnosisEntry (client : Bool) (o : Oracle) (s : App.SessionState)
    (hs : App.Inv s) : App.Inv (App.diagnosisEntry client o s).state := by
  obtain ⟨h0, hle, hinit, hques⟩ := hs
  unfold App.diagnosisEntry
  rcases hd : s.final_diagnosis with _ | d
  · simp only [hd]
    refine ⟨?_, ?_, ?_, ?_⟩ <;> simp [h0, hle] <;>
      first
        | exact fun h => hinit h
        | exact fun h => hques h
  · simp only [hd, ite_self]
    exact ⟨h0, hle, hinit, hques⟩

/-- The No-Create-Ticket handler preserves the index invariant. -/
theorem inv_notSolvedHandler (s : App.SessionState) (hs : App.Inv s) :
    App.Inv (App.notSolvedHandler s).state := by
  obtain ⟨h0, hle, hinit, hques⟩ := hs
  refine ⟨?_, ?_, ?_, ?_⟩ <;> simp [App.notSolvedHandler] <;>
    first
      | exact h0
      | exact hle
      | exact fun h => hinit h
      | exact fun h => hques h

/-- The escalation-form handler preserves the index invariant. -/
theorem inv_escalationFormHandler (client : Bool) (o : Oracle) (n : Nat)
    (s : App.SessionState) (name email : String) (hs : App.Inv s) :
    App.Inv (App.escalationFormHandler client o n s name email).state := by
  unfold App.escalationFormHandler
  split_ifs <;> exact hs

/-- Every in-session event preserves the index invariant. -/
theorem inv_stepOp (client : Bool) (o : Oracle) (s : App.SessionState)
    (op : App.Op) (hs : App.Inv s) : App.Inv (App.stepOp client o s op).state := by
  cases op with
  | startDiagnosis issue =>
    by_cases hstep : s.chat_step = App.ChatStep.init
    · rw [App.stepOp, if_pos hstep]
      exact inv_startDiagnosisHandler client o s issue hs hstep
    · rw [App.stepOp, if_neg hstep]
      exact hs
  | next answer =>
    by_cases hstep : s.chat_step = App.ChatStep.questioning
    · rw [App.stepOp, if_pos hstep]
      exact inv_nextHandler s answer hs hstep
    · rw [App.stepOp, if_neg hstep]
      exact hs
  | stop answer =>
    by_cases hstep : s.chat_step = App.ChatStep.questioning
    · rw [App.stepOp, if_pos hstep]
      exact inv_stopHandler s answer hs hstep
    · rw [App.stepOp, if_neg hstep]
      exact hs
  | enterDiagnosis =>
    by_cases hstep : s.chat_step = App.ChatStep.diagnosis
    · rw [App.stepOp, if_pos hstep]
      exact inv_diagnosisEntry client o s hs
    · rw [App.stepOp, if_neg hstep]
      exact hs
  | notSolved =>
    by_cases hcond : s.chat_step = App.ChatStep.diagnosis ∧
        s.final_diagnosis ≠ some "SKIPPED" ∧ s.final_diagnosis ≠ none
    · rw [App.stepOp, if_pos hcond]
      exact inv_notSolvedHandler s hs
    · rw [App.stepOp, if_neg hcond]
      exact hs
  | submitEscalation name email n =>
    by_cases hcond : s.chat_step = App.ChatStep.diagnosis ∧ s.show_escalation
    · rw [App.stepOp, if_pos hcond]
      exact inv_escalationFormHandler client o n s name email hs
    · rw [App.stepOp, if_neg hcond]
      exact hs

/-- Every reachable session state satisfies the index invariant. -/
theorem inv_reachable (client : Bool) (o : Oracle) (s : App.SessionState)
    (h : App.Reachable client o s) : App.Inv s := by
  induction h with
  | start => exact inv_initialState
  | succ op _ ih => exact inv_stepOp client o _ op ih

/-- The Start Diagnosis handler never changes the question index. -/
theorem idx_startDiagnosisHandler (client : Bool) (o : Oracle)
    (s : App.SessionState) (issue : String) :
    (App.startDiagnosisHandler client o s issue).state.chat_current_q_index =
      s.chat_current_q_index := by
  by_cases hiss : issue = ""
  · simp [App.startDiagnosisHandler, hiss]
  · by_cases hq : (App.get_diagnostic_questions client o issue).1 ≠ [] <;>
      simp [App.startDiagnosisHandler, hiss, hq]

/-- The Next handler never decreases the question index. -/
theorem idx_nextHandler (s : App.SessionState) (answer : String) :
    s.chat_current_q_index ≤
      (App.nextHandler s answer).state.chat_current_q_index := by
  by_cases hans : answer = ""
  · simp [App.nextHandler, hans]
  · by_cases hlt : s.chat_current_q_index + 1 < (s.chat_questions.length : Int)
    · have h : (App.nextHandler s answer).state.chat_current_q_index =
        s.chat_current_q_index + 1 := by simp [App.nextHandler, hans, hlt]
      omega
    · simp [App.nextHandler, hans, hlt]

/-- The Stop handler never changes the question index. -/
theorem idx_stopHandler (s : App.SessionState) (answer : String) :
    (App.stopHandler s answer).state.chat_current_q_index =
      s.chat_current_q_index := by
  by_cases hans : answer ≠ "" <;> simp [App.stopHandler, hans]

/-- The diagnosis pass never changes the question index. -/
theorem idx_diagnosisEntry (client : Bool) (o : Oracle) (s : App.SessionState) :
    (App.diagnosisEntry client o s).state.chat_current_q_index =
      s.chat_current_q_index := by
  rcases hd : s.final_diagnosis with _ | d <;>
    simp [App.diagnosisEntry, hd]

/-- No in-session event ever decreases the question index. -/
theorem idx_mono_stepOp (client : Bool) (o : Oracle) (s : App.SessionState)
    (op : App.Op) :
    s.chat_current_q_index ≤ (App.stepOp client o s op).state.chat_current_q_index := by
  cases op with
  | startDiagnosis issue =>
    by_cases hstep : s.chat_step = App.ChatStep.init
    · rw [App.stepOp, if_pos hstep, idx_startDiagnosisHandler]
    · rw [App.stepOp, if_neg hstep]
  | next answer =>
    by_cases hstep : s.chat_step = App.ChatStep.questioning
    · rw [App.stepOp, if_pos hstep]
      exact idx_nextHandler s answer
    · rw [App.stepOp, if_neg hstep]
  | stop answer =>
    by_cases hstep : s.chat_step = App.ChatStep.questioning
    · rw [App.stepOp, if_pos hstep, idx_stopHandler]
    · rw [App.stepOp, if_neg hstep]
  | enterDiagnosis =>
    by_cases hstep : s.chat_step = App.ChatStep.diagnosis
    · rw [App.stepOp, if_pos hstep, idx_diagnosisEntry]
    · rw [App.stepOp, if_neg hstep]
  | notSolved =>
    by_cases hcond : s.chat_step = App.ChatStep.diagnosis ∧
        s.final_diagnosis ≠ some "SKIPPED" ∧ s.final_diagnosis ≠ none
    · rw [App.stepOp, if_pos hcond]
      exact le_refl _
    · rw [App.stepOp, if_neg hcond]
  | submitEscalation name email n =>
    by_cases hcond : s.chat_step = App.ChatStep.diagnosis ∧ s.show_escalation
    · rw [App.stepOp, if_pos hcond]
      unfold App.escalationFormHandler
      split_ifs <;> exact le_refl _
    · rw [App.stepOp, if_neg hcond]

/-- The question index is monotone across any sequence of in-session
events. -/
theorem idx_mono_runOps (client : Bool) (o : Oracle) :
    ∀ (ops : List App.Op) (s : App.SessionState),
      s.chat_current_q_index ≤ (App.runOps client o s ops).chat_current_q_index
  | [], _ => le_refl _
  | op :: ops, s =>
    le_trans (idx_mono_stepOp client o s op)
      (idx_mono_runOps client o ops (App.stepOp client o s op).state)

/-- C4: in every reachable session state the question index satisfies
`0 ≤ currentIndex ≤ len(questions)`, and across every sequence of
in-session events (reset excluded) the index never decreases. -/
theorem c4_index_invariant (client : Bool) (o : Oracle) (s : App.SessionState)
    (h : App.Reachable client o s) :
    (0 ≤ s.chat_current_q_index ∧
      s.chat_current_q_index ≤ (s.chat_questions.length : Int)) ∧
    ∀ ops : List App.Op,
      s.chat_current_q_index ≤ (App.runOps client o s ops).chat_current_q_index := by
  have hinv := inv_reachable client o s h
  exact ⟨⟨hinv.1, hinv.2.1⟩, fun ops => idx_mono_runOps client o ops s⟩

/-- C4, witness: the initial state, with a concrete event sequence. -/
theorem c4_index_invariant_witness :
    (0 ≤ App.initialState.chat_current_q_index ∧
      App.initialState.chat_current_q_index ≤
        (App.initialState.chat_questions.length : Int)) ∧
    App.initialState.chat_current_q_index ≤
      (App.runOps true oracle_six App.initialState
        [App.Op.startDiagnosis "x", App.Op.next "a1",
          App.Op.next "a2"]).chat_current_q_index :=
  ⟨(c4_index_invariant true oracle_six App.initialState App.Reachable.start).1,
   (c4_index_invariant true oracle_six App.initialState App.Reachable.start).2
     [App.Op.startDiagnosis "x", App.Op.next "a1", App.Op.next "a2"]⟩

end TechSupport
